import Mathlib

/-!
Shallow embedding of the `remove_bg` background-removal service
(FastAPI polling API + batch CLI), covering:

* `src/api/models.py`   — the `TaskStatus` job record;
* `src/api/routes.py`   — `process_image_async` (the async job runner),
  `remove_background` (submission) and `get_result` (result fetch);
* `src/core/image_processor.py` — `ImageProcessor.compress_image`,
  `ImageProcessor.save_image` and `ImageProcessor.process_image`;
* `src/cli/commands.py` — `process_images_parallel` (batch scheduler);
* `src/utils/helpers.py` — `clean_temp_files` (retention sweep).

External collaborators (PIL decode/encode, the `rembg` segmentation
routine, the filesystem and the thread pool) enter as explicit
environment parameters: each fallible external call is an
`Except String _` value (`.error` = the call raised), and the
filesystem is a list of entries or a predicate on paths.
-/

/-! ## Python `pathlib` path helpers

`Path(s).name`, `Path(s).suffix` and `Path(s).stem`, as used by the
routes and the CLI for extension dispatch. `suffix` is the final
component's text from its last dot, provided that dot is neither the
first nor the last character of the component; `stem` is the final
component with that suffix removed. -/

/-- The final path component (text after the last slash). -/
def pyNameChars (s : List Char) : List Char :=
  ((s.reverse.takeWhile (fun c => c ≠ '/')).reverse)

/-- `Path(s).name`. -/
def pyName (s : String) : String :=
  String.mk (pyNameChars s.toList)

/-- Index of the last `.` in a character list, if any. -/
def lastDotIdx : List Char → Option Nat
  | [] => none
  | c :: cs =>
    match lastDotIdx cs with
    | some i => some (i + 1)
    | none => if c = '.' then some 0 else none

/-- `Path(s).suffix`: the extension of the final component, empty when the
last dot is leading or trailing. -/
def pySuffix (s : String) : String :=
  let name := pyNameChars s.toList
  match lastDotIdx name with
  | none => ""
  | some i =>
    if 0 < i ∧ i < name.length - 1 then String.mk (name.drop i) else ""

/-- `Path(s).stem`: the final component without its suffix. -/
def pyStem (s : String) : String :=
  let name := pyNameChars s.toList
  match lastDotIdx name with
  | none => String.mk name
  | some i =>
    if 0 < i ∧ i < name.length - 1 then String.mk (name.take i) else String.mk name

/-- Python `str.lower()` restricted to ASCII, which is all the
extension comparisons here need. -/
def pyLower (s : String) : String :=
  String.mk (s.toList.map Char.toLower)

/-! ## Configuration constants (`src/core/config.py`, `src/core/image_processor.py`) -/

/-- `SUPPORTED_FORMATS` from `src/core/config.py`. -/
def SUPPORTED_FORMATS : List String := [".png", ".jpg", ".jpeg", ".webp"]

/-- `MAX_FILE_SIZE = 10 * 1024 * 1024` from `src/core/config.py`. -/
def MAX_FILE_SIZE : Nat := 10 * 1024 * 1024

/-- `MAX_IMAGE_SIZE = 1920` from `src/core/config.py` (staging-time ceiling). -/
def CONFIG_MAX_IMAGE_SIZE : Nat := 1920

/-- `MAX_IMAGE_SIZE = 4000` from `src/core/image_processor.py` (the
processor's own hard ceiling). -/
def MAX_IMAGE_SIZE : Nat := 4000

/-- `QUALITY_JPEG = 95` from `src/core/image_processor.py`. -/
def QUALITY_JPEG : Nat := 95

/-- `QUALITY_PNG = 95` from `src/core/image_processor.py`. -/
def QUALITY_PNG : Nat := 95

/-! ## The job record (`src/api/models.py`, class `TaskStatus`) -/

/-- One tracked background-removal job, mirroring `TaskStatus.__init__`.
`status` ranges over the strings `pending`, `processing`, `completed`,
`failed`; `progress` is a Python int. -/
structure TaskStatus where
  id : String
  status : String
  progress : Int
  result_path : Option String
  error : Option String
  created_at : Nat
deriving Repr, DecidableEq

/-- `TaskStatus()` — a fresh job: `status = "pending"`, `progress = 0`,
no result path, no error. `id` (a uuid4 in the source) and the creation
time are environment inputs. -/
def TaskStatus.new (id : String) (now : Nat) : TaskStatus :=
  { id := id
    status := "pending"
    progress := 0
    result_path := none
    error := none
    created_at := now }

/-- A job state is terminal when it is `completed` or `failed`. -/
def isTerminal (t : TaskStatus) : Prop :=
  t.status = "completed" ∨ t.status = "failed"

instance (t : TaskStatus) : Decidable (isTerminal t) := by
  unfold isTerminal; infer_instance

/-! ## The async job runner (`src/api/routes.py`, `process_image_async`)

The runner mutates the single job record it was handed. We embed it as
the sequence of states the record passes through: the state at entry,
the state after the `processing` transition, and the terminal state.
`outcome` is the result of awaiting `ImageProcessor.process_image` on
the executor: `.ok b` when the call returned the boolean `b`, and
`.error e` when a fault carrying description `e` was raised inside the
`try` block (caught by the runner's `except`). -/

/-- The trace of job states produced by one run of `process_image_async`. -/
def process_image_async (task : TaskStatus) (output_path : String)
    (outcome : Except String Bool) : List TaskStatus :=
  let processing := { task with status := "processing", progress := 10 }
  match outcome with
  | .ok true =>
    [task, processing,
      { processing with status := "completed", progress := 100,
                        result_path := some output_path }]
  | .ok false =>
    [task, processing,
      { processing with status := "failed",
                        error := some "Failed to process image" }]
  | .error e =>
    [task, processing,
      { processing with status := "failed", error := some e, progress := 0 }]

/-- The job record once `process_image_async` has returned. -/
def runnerFinal (task : TaskStatus) (output_path : String)
    (outcome : Except String Bool) : TaskStatus :=
  (process_image_async task output_path outcome).getLastD task

/-- C1 — For every job driven by the async runner, the state follows
`pending → processing → (completed | failed)` and never regresses: the
job is created `pending` with `progress = 0`, the `processing`
transition sets `progress` to the non-zero started marker `10`, the
trace ends in a terminal state, terminal states occur only at the end
of the trace, and once a state in the trace is terminal every later
state of the trace equals it. -/
theorem runner_state_machine (id : String) (now : Nat) (output_path : String)
    (outcome : Except String Bool) :
    ∃ t0 t1 t2,
      process_image_async (TaskStatus.new id now) output_path outcome
          = [t0, t1, t2] ∧
      t0 = TaskStatus.new id now ∧
      t0.status = "pending" ∧ t0.progress = 0 ∧
      t1.status = "processing" ∧ t1.progress = 10 ∧ (10 : Int) ≠ 0 ∧
      isTerminal t2 ∧ ¬ isTerminal t0 ∧ ¬ isTerminal t1 ∧
      (∀ i j : Nat, i ≤ j → j < 3 →
        isTerminal ([t0, t1, t2].getD i t0) →
        [t0, t1, t2].getD j t0 = [t0, t1, t2].getD i t0) := by
  cases outcome with
  | error e =>
    refine ⟨_, _, _, rfl, rfl, rfl, rfl, rfl, rfl, by decide,
      Or.inr rfl, by simp [isTerminal, TaskStatus.new],
      by simp [isTerminal, TaskStatus.new], ?_⟩
    intro i j hij hj ht
    interval_cases j <;> interval_cases i <;>
      first
        | rfl
        | simp_all [isTerminal, TaskStatus.new]
  | ok b =>
    cases b with
    | false =>
      refine ⟨_, _, _, rfl, rfl, rfl, rfl, rfl, rfl, by decide,
        Or.inr rfl, by simp [isTerminal, TaskStatus.new],
        by simp [isTerminal, TaskStatus.new], ?_⟩
      intro i j hij hj ht
      interval_cases j <;> interval_cases i <;>
        first
          | rfl
          | simp_all [isTerminal, TaskStatus.new]
    | true =>
      refine ⟨_, _, _, rfl, rfl, rfl, rfl, rfl, rfl, by decide,
        Or.inl rfl, by simp [isTerminal, TaskStatus.new],
        by simp [isTerminal, TaskStatus.new], ?_⟩
      intro i j hij hj ht
      interval_cases j <;> interval_cases i <;>
        first
          | rfl
          | simp_all [isTerminal, TaskStatus.new]

/-- C2 counterexample — a job whose adapter call returned `false` ends
`failed` with `progress = 10`, not `0`: the runner's `else` branch sets
`status` and `error` but leaves `progress` at the started marker. -/
theorem failed_job_progress_ten :
    (runnerFinal (TaskStatus.new "job-1" 0) "out.png" (Except.ok false)).status
        = "failed" ∧
    (runnerFinal (TaskStatus.new "job-1" 0) "out.png" (Except.ok false)).progress
        ≠ 0 := by
  decide

/-- C2 amended — for every job reaching `failed`: when the adapter
returned `false`, `error` is the non-empty string
`"Failed to process image"` and `progress` stays at the started marker
`10`; when a fault was raised in the runner, `error` is the fault's
description and `progress` is reset to `0`. -/
theorem failed_job_error_and_progress (id : String) (now : Nat)
    (output_path : String) (e : String) :
    ((runnerFinal (TaskStatus.new id now) output_path (Except.ok false)).status
        = "failed" ∧
     (runnerFinal (TaskStatus.new id now) output_path (Except.ok false)).error
        = some "Failed to process image" ∧
     "Failed to process image" ≠ "" ∧
     (runnerFinal (TaskStatus.new id now) output_path (Except.ok false)).progress
        = 10) ∧
    ((runnerFinal (TaskStatus.new id now) output_path (Except.error e)).status
        = "failed" ∧
     (runnerFinal (TaskStatus.new id now) output_path (Except.error e)).error
        = some e ∧
     (runnerFinal (TaskStatus.new id now) output_path (Except.error e)).progress
        = 0) := by
  refine ⟨⟨rfl, rfl, by decide, rfl⟩, ⟨rfl, rfl, rfl⟩⟩

/-! ## The image model

A PIL image, reduced to what `save_image`/`process_image` inspect: its
mode, its dimensions and a flat pixel buffer. Pixel channel values are
0–255. Decoding, resampling and the `rembg` segmentation network are
external; they appear as environment functions producing `PyImage`s. -/

/-- PIL image modes this code distinguishes (`RGBA` carries alpha). -/
inductive ImageMode where
  | RGBA
  | RGB
  | L
deriving Repr, DecidableEq

/-- One pixel, channels 0–255; `a` is ignored for non-RGBA modes. -/
structure Pixel where
  r : Nat
  g : Nat
  b : Nat
  a : Nat
deriving Repr, DecidableEq

/-- A decoded in-memory image. -/
structure PyImage where
  mode : ImageMode
  width : Nat
  height : Nat
  data : List Pixel
deriving Repr, DecidableEq

/-- `DEFAULT_BG_COLOR = 'white'` from `src/core/image_processor.py`,
as an opaque-format RGB pixel. -/
def DEFAULT_BG_COLOR : Pixel := { r := 255, g := 255, b := 255, a := 255 }

/-- `ImageProcessor.compress_image`: a no-op when the longer side is
within `max_size`, otherwise a LANCZOS resize so the longer side equals
`max_size`. The resampled pixel buffer is the external codec's output;
only the dimensions are computed here (`int(dim * ratio)` with
`ratio = max_size / max(size)`). -/
def compress_image (image : PyImage) (max_size : Nat) : PyImage :=
  if max image.width image.height ≤ max_size then image
  else
    { image with
      width := image.width * max_size / max image.width image.height
      height := image.height * max_size / max image.width image.height }

/-! ## Saving (`ImageProcessor.save_image`)

`bg.paste(image, mask=alpha)` blends the pasted image over the
background through the mask; `bg.paste(image)` (no mask) overwrites the
background, dropping alpha. The JPEG encoder rejects images that carry
an alpha channel (`cannot write mode RGBA as JPEG` in PIL); the PNG
encoder accepts every mode here. `ioFault` models a fault raised by the
filesystem (`mkdir`/write): `save_image` catches any fault and
re-raises it as `ValueError("Failed to save image: ...")`. -/

/-- Alpha-mask paste of `fg` over background color `bg`:
`out = (fg * a + bg * (255 - a)) / 255`, output opaque. -/
def pasteWithAlphaMask (bg fg : Pixel) : Pixel :=
  { r := (fg.r * fg.a + bg.r * (255 - fg.a)) / 255
    g := (fg.g * fg.a + bg.g * (255 - fg.a)) / 255
    b := (fg.b * fg.a + bg.b * (255 - fg.a)) / 255
    a := 255 }

/-- Mask-less paste: the pasted pixel overwrites the background, made
opaque by the RGB target. -/
def pasteOpaque (fg : Pixel) : Pixel :=
  { fg with a := 255 }

/-- The bytes `Image.save` wrote: the chosen encoder plus the encoded
image and quality setting. -/
structure SavedFile where
  format : String
  mode : ImageMode
  width : Nat
  height : Nat
  data : List Pixel
  quality : Nat
deriving Repr, DecidableEq

/-- `img.save(path, fmt, quality=q)`: the JPEG encoder raises on an
alpha-carrying image; PNG accepts all modes here. -/
def encodeImage (fmt : String) (img : PyImage) (quality : Nat) :
    Except String SavedFile :=
  if fmt = "JPEG" ∧ img.mode = ImageMode.RGBA then
    .error "cannot write mode RGBA as JPEG"
  else
    .ok { format := fmt, mode := img.mode, width := img.width,
          height := img.height, data := img.data, quality := quality }

/-- `ImageProcessor.save_image`: for a `.jpg`/`.jpeg` output path,
composite over a solid `bg_color` background (alpha-mask paste when the
image is RGBA, plain paste otherwise) and save as JPEG; for any other
path save the image itself with the explicit `PNG` encoder. Any fault
is re-raised as `ValueError`. -/
def save_image (ioFault : Option String) (image : PyImage)
    (output_path : String) (bg_color : Pixel) : Except String SavedFile :=
  let body : Except String SavedFile :=
    if pyLower (pySuffix output_path) ∈ [".jpg", ".jpeg"] then
      let composited : PyImage :=
        if image.mode = ImageMode.RGBA then
          { mode := ImageMode.RGB, width := image.width,
            height := image.height,
            data := image.data.map (pasteWithAlphaMask bg_color) }
        else
          { mode := ImageMode.RGB, width := image.width,
            height := image.height,
            data := image.data.map pasteOpaque }
      encodeImage "JPEG" composited QUALITY_JPEG
    else
      encodeImage "PNG" image QUALITY_PNG
  match ioFault with
  | some e => .error ("Failed to save image: " ++ e)
  | none =>
    match body with
    | .error e => .error ("Failed to save image: " ++ e)
    | .ok f => .ok f

/-! ## The segmentation adapter (`ImageProcessor.process_image`) -/

/-- The adapter's external collaborators: `Image.open` on the input
path, the `rembg.remove` call (given the staged image and the
alpha-matting flag), and the filesystem behaviour of the save step for
the output path. `.error` means the call raised. -/
structure SegEnv where
  openImage : String → Except String PyImage
  segment : PyImage → Bool → Except String PyImage
  saveIoFault : String → Option String

/-- The image `process_image` hands to segmentation: the decoded input,
downsampled when its longer side exceeds the processor ceiling. -/
def stagedInput (img : PyImage) : PyImage :=
  if max img.width img.height > MAX_IMAGE_SIZE then
    compress_image img MAX_IMAGE_SIZE
  else img

/-- `ImageProcessor.process_image`: open, downsample, segment, save —
all inside one `try`; any raised fault is caught and turned into the
return value `false`, a successful run returns `true`. The result is
`Except String Bool` so that an uncaught fault would show up as
`.error`; the catch-all `except` makes that impossible. -/
def process_image (env : SegEnv) (input_path output_path : String)
    (alpha_matting : Bool) : Except String Bool :=
  match env.openImage input_path with
  | .error _ => .ok false
  | .ok input_image =>
    match env.segment (stagedInput input_image) alpha_matting with
    | .error _ => .ok false
    | .ok output_image =>
      match save_image (env.saveIoFault output_path) output_image
          output_path DEFAULT_BG_COLOR with
      | .error _ => .ok false
      | .ok _ => .ok true

/-- All steps of the adapter pipeline succeed on the given inputs:
the open/decode, the segmentation call on the staged image, and the
save of the segmented image. -/
def segStepsAllSucceed (env : SegEnv) (input_path output_path : String)
    (alpha_matting : Bool) : Prop :=
  ∃ img out saved,
    env.openImage input_path = .ok img ∧
    env.segment (stagedInput img) alpha_matting = .ok out ∧
    save_image (env.saveIoFault output_path) out output_path
      DEFAULT_BG_COLOR = .ok saved

/-- C3 — The adapter never lets a fault propagate (its result is always
a boolean, never a raised fault), and it returns `true` exactly when
the open, segmentation and save steps all succeeded. -/
theorem adapter_catches_all_faults (env : SegEnv)
    (input_path output_path : String) (alpha_matting : Bool) :
    (∃ b, process_image env input_path output_path alpha_matting
        = Except.ok b) ∧
    (process_image env input_path output_path alpha_matting = Except.ok true ↔
      segStepsAllSucceed env input_path output_path alpha_matting) := by
  constructor
  · cases h1 : env.openImage input_path with
    | error e => exact ⟨false, by simp [process_image, h1]⟩
    | ok img =>
      cases h2 : env.segment (stagedInput img) alpha_matting with
      | error e => exact ⟨false, by simp [process_image, h1, h2]⟩
      | ok out =>
        cases h3 : save_image (env.saveIoFault output_path) out output_path
            DEFAULT_BG_COLOR with
        | error e => exact ⟨false, by simp [process_image, h1, h2, h3]⟩
        | ok saved => exact ⟨true, by simp [process_image, h1, h2, h3]⟩
  · unfold process_image segStepsAllSucceed
    cases h1 : env.openImage input_path with
    | error e => simp [h1]
    | ok img =>
      cases h2 : env.segment (stagedInput img) alpha_matting with
      | error e => simp [h1, h2]
      | ok out =>
        cases h3 : save_image (env.saveIoFault output_path) out output_path
            DEFAULT_BG_COLOR with
        | error e => simp [h1, h2, h3]
        | ok saved => simp [h1, h2, h3]

/-- C7 — Saving to a `.jpg`/`.jpeg` path composites over the solid
background color (alpha-mask paste when the image is RGBA, plain paste
otherwise) and encodes as JPEG without raising; the result carries no
alpha. Saving to any other path preserves the image — alpha included —
under the PNG encoder. A fully transparent RGBA image saved to a
`.jpg`-style path yields the background color at every pixel. The
default background color is white. -/
theorem save_image_format_dispatch (image : PyImage) (output_path : String)
    (bg_color : Pixel) :
    (pyLower (pySuffix output_path) ∈ [".jpg", ".jpeg"] →
      ∃ f, save_image none image output_path bg_color = Except.ok f ∧
        f.format = "JPEG" ∧ f.mode = ImageMode.RGB ∧
        (image.mode = ImageMode.RGBA →
          f.data = image.data.map (pasteWithAlphaMask bg_color)) ∧
        (image.mode ≠ ImageMode.RGBA → f.data = image.data.map pasteOpaque) ∧
        (image.mode = ImageMode.RGBA → (∀ p ∈ image.data, p.a = 0) →
          ∀ q ∈ f.data,
            q = { r := bg_color.r, g := bg_color.g, b := bg_color.b,
                  a := 255 })) ∧
    (pyLower (pySuffix output_path) ∉ [".jpg", ".jpeg"] →
      save_image none image output_path bg_color =
        Except.ok { format := "PNG", mode := image.mode,
                    width := image.width, height := image.height,
                    data := image.data, quality := QUALITY_PNG }) ∧
    DEFAULT_BG_COLOR = { r := 255, g := 255, b := 255, a := 255 } := by
  refine ⟨?_, ?_, rfl⟩
  · intro hjpg
    by_cases hmode : image.mode = ImageMode.RGBA
    · refine ⟨{ format := "JPEG", mode := ImageMode.RGB, width := image.width,
                height := image.height,
                data := image.data.map (pasteWithAlphaMask bg_color),
                quality := QUALITY_JPEG },
        ?_, rfl, rfl, fun _ => rfl, fun h => absurd hmode h, ?_⟩
      · simp [save_image, hjpg, hmode, encodeImage]
      · intro _ htrans q hq
        simp only [List.mem_map] at hq
        obtain ⟨p, hp, rfl⟩ := hq
        have ha := htrans p hp
        have h255 : ∀ n : Nat, n * 255 / 255 = n :=
          fun n => Nat.mul_div_cancel n (by norm_num)
        simp [pasteWithAlphaMask, ha, h255]
    · refine ⟨{ format := "JPEG", mode := ImageMode.RGB, width := image.width,
                height := image.height,
                data := image.data.map pasteOpaque,
                quality := QUALITY_JPEG },
        ?_, rfl, rfl, fun h => absurd h hmode, fun _ => rfl,
        fun h => absurd h hmode⟩
      simp [save_image, hjpg, hmode, encodeImage]
  · intro hnot
    simp [save_image, hnot, encodeImage]

/-- C10 — For a non-`.jpg`/`.jpeg` output path, `save_image` hands the
image to the explicitly chosen PNG encoder, whatever the extension
says (`.webp` included): the declared extension never selects the
encoder. -/
theorem save_image_png_encoder_explicit (image : PyImage)
    (output_path : String) (bg_color : Pixel)
    (h : pyLower (pySuffix output_path) ∉ [".jpg", ".jpeg"]) :
    ∃ f, save_image none image output_path bg_color = Except.ok f ∧
      f.format = "PNG" := by
  refine ⟨{ format := "PNG", mode := image.mode, width := image.width,
            height := image.height, data := image.data,
            quality := QUALITY_PNG }, ?_, rfl⟩
  simp [save_image, h, encodeImage]

/-- C10 witness — a transparent 1×1 RGBA image written to `out.webp`
receives PNG-encoded bytes. -/
theorem save_image_png_encoder_explicit_witness :
    ∃ f, save_image none
        { mode := ImageMode.RGBA, width := 1, height := 1,
          data := [{ r := 0, g := 0, b := 0, a := 0 }] }
        "out.webp" DEFAULT_BG_COLOR = Except.ok f ∧
      f.format = "PNG" :=
  save_image_png_encoder_explicit
    { mode := ImageMode.RGBA, width := 1, height := 1,
      data := [{ r := 0, g := 0, b := 0, a := 0 }] }
    "out.webp" DEFAULT_BG_COLOR (by decide)

/-! ## HTTP surface (`src/api/routes.py`) -/

/-- The `detail` payload of a raised `HTTPException`: either a plain
string or the structured dict `get_result` builds (keys absent from
the dict are `none`). -/
structure ErrDetail where
  message : String
  task_id : Option String
  status : Option String
  progress : Option Int
deriving Repr, DecidableEq

/-- A string-only `detail`. -/
def plainDetail (msg : String) : ErrDetail :=
  { message := msg, task_id := none, status := none, progress := none }

/-- A raised `HTTPException(status_code, detail)`. -/
structure HTTPException where
  status_code : Nat
  detail : ErrDetail
deriving Repr, DecidableEq

/-- `compress_image` from `src/utils/image_utils.py`, the staging-time
downsample used by the submission route (same arithmetic as the
processor's, written with the opposite guard). -/
def utils_compress_image (image : PyImage) (max_size : Nat) : PyImage :=
  if max image.width image.height > max_size then
    { image with
      width := image.width * max_size / max image.width image.height
      height := image.height * max_size / max image.width image.height }
  else image

/-- The submission route's external collaborators: the result of
`Image.open` on the uploaded bytes, the fresh `uuid4`, the clock, and
whether `image.save(input_path)` raises. -/
structure SubmitEnv where
  decodeImage : Except String PyImage
  newTaskId : String
  now : Nat
  saveInputFault : Option String

/-- What one call of the submission route did: the HTTP response, the
task registered in `tasks_status` (if any), and whether the handler
reached the decode step. -/
structure SubmitOutcome where
  response : Except HTTPException String
  createdTask : Option TaskStatus
  decodeAttempted : Bool
deriving Repr

/-- `remove_background` (`POST /remove-background`): reject an
unsupported extension, then reject an oversized payload, and only then
decode the bytes, downsample, create and register a `TaskStatus`, and
save the staged input (a raised save fault is caught and answered with
a 400 — the task stays registered). On success the response carries the
new task id; the background work itself is scheduled after the
response. -/
def remove_background (env : SubmitEnv) (filename : String)
    (fileSize : Nat) : SubmitOutcome :=
  if pyLower (pySuffix filename) ∉ SUPPORTED_FORMATS then
    { response := .error ⟨400, plainDetail "Unsupported file format"⟩
      createdTask := none
      decodeAttempted := false }
  else if fileSize > MAX_FILE_SIZE then
    { response := .error ⟨400, plainDetail "File too large"⟩
      createdTask := none
      decodeAttempted := false }
  else
    match env.decodeImage with
    | .error e =>
      { response := .error ⟨400, plainDetail e⟩
        createdTask := none
        decodeAttempted := true }
    | .ok image =>
      let _staged := utils_compress_image image CONFIG_MAX_IMAGE_SIZE
      let task := TaskStatus.new env.newTaskId env.now
      match env.saveInputFault with
      | some e =>
        { response := .error ⟨400, plainDetail e⟩
          createdTask := some task
          decodeAttempted := true }
      | none =>
        { response := .ok task.id
          createdTask := some task
          decodeAttempted := true }

/-- C4 — an unsupported extension or an oversized payload is answered
with a synchronous 400 before any job is created and registered, and
before any attempt to decode the bytes (in particular the size check
precedes the decode). -/
theorem submission_rejects_before_job_creation (env : SubmitEnv)
    (filename : String) (fileSize : Nat)
    (h : pyLower (pySuffix filename) ∉ SUPPORTED_FORMATS ∨
      fileSize > MAX_FILE_SIZE) :
    (∃ err, (remove_background env filename fileSize).response
        = Except.error err ∧ err.status_code = 400) ∧
    (remove_background env filename fileSize).createdTask = none ∧
    (remove_background env filename fileSize).decodeAttempted = false := by
  rcases h with h | h
  · refine ⟨⟨⟨400, plainDetail "Unsupported file format"⟩, ?_, rfl⟩, ?_, ?_⟩ <;>
      simp [remove_background, h]
  · by_cases hf : pyLower (pySuffix filename) ∈ SUPPORTED_FORMATS
    · refine ⟨⟨⟨400, plainDetail "File too large"⟩, ?_, rfl⟩, ?_, ?_⟩ <;>
        simp [remove_background, hf, h]
    · refine ⟨⟨⟨400, plainDetail "Unsupported file format"⟩, ?_, rfl⟩, ?_, ?_⟩ <;>
        simp [remove_background, hf]

/-- C4 witness — submitting `photo.gif` (unsupported extension) is
rejected with a 400, creates no job, and never reaches the decoder. -/
theorem submission_rejects_witness :
    (∃ err, (remove_background
        ⟨Except.error "boom", "id-1", 0, none⟩ "photo.gif" 0).response
        = Except.error err ∧ err.status_code = 400) ∧
    (remove_background ⟨Except.error "boom", "id-1", 0, none⟩
        "photo.gif" 0).createdTask = none ∧
    (remove_background ⟨Except.error "boom", "id-1", 0, none⟩
        "photo.gif" 0).decodeAttempted = false :=
  submission_rejects_before_job_creation
    ⟨Except.error "boom", "id-1", 0, none⟩ "photo.gif" 0
    (Or.inl (by decide))

/-- The file payload a successful `GET /result/{task_id}` returns. -/
structure FileResponse where
  path : String
  media_type : String
  filename : String
deriving Repr, DecidableEq

/-- Python truthiness of an optional string (`not task.result_path` is
true for both `None` and the empty string). -/
def pyTruthy : Option String → Bool
  | none => false
  | some s => !(s == "")

/-- `get_result` (`GET /result/{task_id}`): 404 `Task not found` for an
unknown id; 400 `Task not completed` (carrying the current status and
progress) when the job is not `completed`; 404 `Result file not found`
when the job completed but its result path is unset or no longer on
storage; otherwise the result file. `tasks` is the `tasks_status`
registry, `fileExists` the filesystem's `Path(...).exists()`. -/
def get_result (tasks : String → Option TaskStatus)
    (fileExists : String → Bool) (task_id : String) :
    Except HTTPException FileResponse :=
  match tasks task_id with
  | none =>
    .error ⟨404, { message := "Task not found", task_id := some task_id,
                   status := none, progress := none }⟩
  | some task =>
    if task.status ≠ "completed" then
      .error ⟨400, { message := "Task not completed",
                     task_id := some task_id,
                     status := some task.status,
                     progress := some task.progress }⟩
    else if !(pyTruthy task.result_path)
        || !(fileExists (task.result_path.getD "")) then
      .error ⟨404, { message := "Result file not found",
                     task_id := some task_id,
                     status := none, progress := none }⟩
    else
      .ok { path := task.result_path.getD ""
            media_type := "image/png"
            filename := "background_removed_" ++ task_id ++ ".png" }

/-- The job's result artifact is on storage: a non-empty result path
naming a file that exists. -/
def resultFileOnStorage (task : TaskStatus)
    (fileExists : String → Bool) : Prop :=
  ∃ p, task.result_path = some p ∧ p ≠ "" ∧ fileExists p = true

/-- C5 — the fetch succeeds iff the job exists, is `completed`, and its
result artifact is on storage; the success returns that file; and the
three failure modes are answered with distinct structured errors:
unknown id (404 `Task not found`), not yet completed (400 with the
current status and progress), and completed with the artifact missing
(404 `Result file not found`, a different message from plain
not-found). -/
theorem result_fetch_cases (tasks : String → Option TaskStatus)
    (fileExists : String → Bool) (task_id : String) :
    ((∃ fr, get_result tasks fileExists task_id = Except.ok fr) ↔
      (∃ task, tasks task_id = some task ∧ task.status = "completed" ∧
        resultFileOnStorage task fileExists)) ∧
    (∀ task p, tasks task_id = some task → task.status = "completed" →
      task.result_path = some p → p ≠ "" → fileExists p = true →
      get_result tasks fileExists task_id =
        Except.ok { path := p, media_type := "image/png",
                    filename := "background_removed_" ++ task_id ++ ".png" }) ∧
    (tasks task_id = none →
      get_result tasks fileExists task_id =
        Except.error ⟨404, { message := "Task not found",
                             task_id := some task_id,
                             status := none, progress := none }⟩) ∧
    (∀ task, tasks task_id = some task → task.status ≠ "completed" →
      get_result tasks fileExists task_id =
        Except.error ⟨400, { message := "Task not completed",
                             task_id := some task_id,
                             status := some task.status,
                             progress := some task.progress }⟩) ∧
    (∀ task, tasks task_id = some task → task.status = "completed" →
      ¬ resultFileOnStorage task fileExists →
      get_result tasks fileExists task_id =
        Except.error ⟨404, { message := "Result file not found",
                             task_id := some task_id,
                             status := none, progress := none }⟩) ∧
    ("Result file not found" : String) ≠ "Task not found" := by
  refine ⟨?_, ?_, ?_, ?_, ?_, by decide⟩
  · cases h : tasks task_id with
    | none => simp [get_result, h, resultFileOnStorage]
    | some task =>
      by_cases hs : task.status = "completed"
      · cases hrp : task.result_path with
        | none =>
          simp [get_result, h, hs, hrp, pyTruthy, resultFileOnStorage]
        | some p =>
          by_cases hp : p = ""
          · simp [get_result, h, hs, hrp, hp, pyTruthy, resultFileOnStorage]
          · by_cases hfe : fileExists p
            · simp [get_result, h, hs, hrp, hp, pyTruthy,
                resultFileOnStorage, hfe]
            · simp [get_result, h, hs, hrp, hp, pyTruthy,
                resultFileOnStorage, hfe]
      · simp [get_result, h, hs, resultFileOnStorage]
  · intro task p htask hs hrp hp hfe
    simp [get_result, htask, hs, hrp, pyTruthy, hp, hfe]
  · intro h
    simp [get_result, h]
  · intro task htask hs
    simp [get_result, htask, hs]
  · intro task htask hs hno
    cases hrp : task.result_path with
    | none => simp [get_result, htask, hs, hrp, pyTruthy]
    | some p =>
      by_cases hp : p = ""
      · simp [get_result, htask, hs, hrp, hp, pyTruthy]
      · by_cases hfe : fileExists p
        · exact absurd ⟨p, hrp, hp, hfe⟩ hno
        · simp [get_result, htask, hs, hrp, hp, pyTruthy, hfe]

/-! ## The batch scheduler (`src/cli/commands.py`, `process_images_parallel`) -/

/-- Output path derivation for one batch item: a `.jpg`/`.jpeg` source
maps to `no_bg_<stem>.png` in the output directory, any other source
keeps its filename behind the `no_bg_` prefix. -/
def computeOutputPath (output_dir : String) (input_path : String) : String :=
  if pyLower (pySuffix input_path) ∈ [".jpg", ".jpeg"] then
    output_dir ++ "/no_bg_" ++ pyStem input_path ++ ".png"
  else
    output_dir ++ "/no_bg_" ++ pyName input_path

/-- Collecting one future's result: `successful` ticks on a returned
`true`, `failed` ticks on a returned `false` or on a raised fault (the
`except` arm of the collection loop). -/
def collectOutcome (acc : Nat × Nat) (r : Except String Bool) : Nat × Nat :=
  match r with
  | .ok true => (acc.1 + 1, acc.2)
  | .ok false => (acc.1, acc.2 + 1)
  | .error _ => (acc.1, acc.2 + 1)

/-- Did this item count as a success? -/
def isItemSuccess : Except String Bool → Bool
  | .ok true => true
  | .ok false => false
  | .error _ => false

/-- `process_images_parallel`: every input is submitted with its
derived output path, then each future's outcome is collected in turn;
`run input output` is that item's future result (`.ok b` when
`ImageProcessor.process_image` returned `b`, `.error` when the worker
raised). Returns `(successful, failed)`. -/
def process_images_parallel (input_paths : List String)
    (output_dir : String) (run : String → String → Except String Bool) :
    Nat × Nat :=
  (input_paths.map fun ip => run ip (computeOutputPath output_dir ip)).foldl
    collectOutcome (0, 0)

/-- The collection loop adds, to any starting tally, one success per
`.ok true` result and one failure per other result. -/
theorem collect_foldl (l : List (Except String Bool)) (a b : Nat) :
    l.foldl collectOutcome (a, b) =
      (a + l.countP isItemSuccess,
       b + l.countP fun r => ! isItemSuccess r) := by
  induction l generalizing a b with
  | nil => simp
  | cons x xs ih =>
    simp only [List.foldl_cons]
    cases x with
    | ok v =>
      cases v <;>
        simp [collectOutcome, isItemSuccess, List.countP_cons, ih] <;>
        omega
    | error e =>
      simp [collectOutcome, isItemSuccess, List.countP_cons, ih]
      omega

/-- Complementary counts partition a list. -/
theorem countP_not_add (p : α → Bool) (l : List α) :
    l.countP p + l.countP (fun x => ! p x) = l.length := by
  induction l with
  | nil => simp
  | cons x xs ih =>
    by_cases h : p x = true <;> simp [List.countP_cons, h] <;> omega

/-- C6 — for N batch items of which exactly K fail (returned `false`
or raised), the scheduler reports `successful = N - K` and
`failed = K`, so the two always sum to N; and the tallies compose over
any split of the item list, so one item's failure or fault never
prevents the remaining items from being processed and counted. -/
theorem batch_counts (input_paths : List String) (output_dir : String)
    (run : String → String → Except String Bool) :
    ((process_images_parallel input_paths output_dir run).1 =
      input_paths.length -
        (input_paths.map fun ip => run ip (computeOutputPath output_dir ip)).countP
          (fun r => ! isItemSuccess r)) ∧
    ((process_images_parallel input_paths output_dir run).2 =
      (input_paths.map fun ip => run ip (computeOutputPath output_dir ip)).countP
        (fun r => ! isItemSuccess r)) ∧
    ((process_images_parallel input_paths output_dir run).1 +
      (process_images_parallel input_paths output_dir run).2 =
      input_paths.length) ∧
    (∀ l₁ l₂ : List String,
      process_images_parallel (l₁ ++ l₂) output_dir run =
        ((process_images_parallel l₁ output_dir run).1 +
           (process_images_parallel l₂ output_dir run).1,
         (process_images_parallel l₁ output_dir run).2 +
           (process_images_parallel l₂ output_dir run).2)) := by
  have key : ∀ l : List String,
      process_images_parallel l output_dir run =
        ((l.map fun ip => run ip (computeOutputPath output_dir ip)).countP
            isItemSuccess,
         (l.map fun ip => run ip (computeOutputPath output_dir ip)).countP
            fun r => ! isItemSuccess r) := by
    intro l
    have := collect_foldl
      (l.map fun ip => run ip (computeOutputPath output_dir ip)) 0 0
    simpa [process_images_parallel] using this
  have hpart := countP_not_add isItemSuccess
    (input_paths.map fun ip => run ip (computeOutputPath output_dir ip))
  refine ⟨?_, ?_, ?_, ?_⟩
  · rw [key]
    simp only []
    rw [List.length_map] at hpart
    omega
  · rw [key]
  · rw [key]
    simp only []
    rw [List.length_map] at hpart
    omega
  · intro l₁ l₂
    rw [key, key, key]
    simp [List.countP_append]

/-- The lossy source formats the spec's output-name rule singles out. -/
def lossyFormats : List String := [".jpg", ".jpeg"]

/-- Modelled from the spec's words for the output-name rule of §4.5:
a source with a lossy-format extension maps to its stem with a `.png`
extension behind the fixed `no_bg_` prefix; any other source reuses its
original filename behind the same prefix; the result is joined onto the
output directory. Stated independently of `computeOutputPath` to be
compared against it. -/
def outputFileNameSpec (input_path : String) : String :=
  if pyLower (pySuffix input_path) ∈ lossyFormats then
    "no_bg_" ++ pyStem input_path ++ ".png"
  else
    "no_bg_" ++ pyName input_path

/-- C9 — the scheduler's output path is exactly the spec's rule: the
output directory joined with `no_bg_<stem>.png` for `.jpg`/`.jpeg`
sources and with `no_bg_<original filename>` otherwise; e.g.
`photo.JPG` maps to `no_bg_photo.png` and `img.webp` to
`no_bg_img.webp`. -/
theorem output_path_derivation (output_dir input_path : String) :
    computeOutputPath output_dir input_path =
      output_dir ++ "/" ++ outputFileNameSpec input_path ∧
    computeOutputPath "out" "photo.JPG" = "out/no_bg_photo.png" ∧
    computeOutputPath "out" "img.webp" = "out/no_bg_img.webp" := by
  refine ⟨?_, by decide, by decide⟩
  unfold computeOutputPath outputFileNameSpec lossyFormats
  by_cases h : pyLower (pySuffix input_path) ∈ [".jpg", ".jpeg"]
  · rw [if_pos h, if_pos h]
    simp only [String.append_assoc]
    rw [← String.append_assoc "/" "no_bg_" (pyStem input_path ++ ".png")]
    rfl
  · rw [if_neg h, if_neg h]
    simp only [String.append_assoc]
    rw [← String.append_assoc "/" "no_bg_" (pyName input_path)]
    rfl

/-! ## The retention sweep (`src/utils/helpers.py`, `clean_temp_files`) -/

/-- One directory entry as the sweep sees it: its name, whether it is a
regular file, its last-modified time (seconds), and whether an
`unlink` on it would raise. -/
structure FsEntry where
  name : String
  is_file : Bool
  mtime : Int
  unlink_fails : Bool
deriving Repr, DecidableEq

/-- Does the sweep keep this entry? `clean_temp_files` removes an entry
iff it is a regular file, strictly older than the cutoff, and the
`unlink` does not itself raise (a raised `unlink` is caught per file,
logged, and the entry survives while the loop continues). -/
def sweepKeeps (cutoff : Int) (e : FsEntry) : Bool :=
  !(e.is_file && decide (e.mtime < cutoff) && !e.unlink_fails)

/-- `clean_temp_files(temp_dir, max_age_hours)`: `none` is a missing
directory (the function returns at once); otherwise every entry is
inspected — non-files are skipped and files modified before
`now - max_age_hours` (hours, here in seconds) are unlinked. The value
is the directory contents after the sweep. -/
def clean_temp_files (temp_dir : Option (List FsEntry)) (now : Int)
    (max_age_hours : Int) : Option (List FsEntry) :=
  match temp_dir with
  | none => none
  | some entries =>
    some (entries.filter (sweepKeeps (now - max_age_hours * 3600)))

/-- C8 — the sweep of a missing directory is a no-op; when no deletion
fails it removes exactly the regular files strictly older than the
cutoff; every non-file and every file at or after the cutoff survives
unconditionally; and a failing deletion keeps only its own entry while
the entries after it are still swept. -/
theorem retention_sweep (now max_age_hours : Int) :
    clean_temp_files none now max_age_hours = none ∧
    (∀ entries : List FsEntry, (∀ e ∈ entries, e.unlink_fails = false) →
      clean_temp_files (some entries) now max_age_hours =
        some (entries.filter fun e =>
          !(e.is_file && decide (e.mtime < now - max_age_hours * 3600)))) ∧
    (∀ (entries : List FsEntry) (e : FsEntry), e ∈ entries →
      (e.is_file = false ∨ now - max_age_hours * 3600 ≤ e.mtime) →
      ∃ l, clean_temp_files (some entries) now max_age_hours = some l ∧
        e ∈ l) ∧
    (∀ (l₁ l₂ : List FsEntry) (b : FsEntry), b.unlink_fails = true →
      clean_temp_files (some (l₁ ++ b :: l₂)) now max_age_hours =
        some (l₁.filter (sweepKeeps (now - max_age_hours * 3600)) ++
          b :: l₂.filter (sweepKeeps (now - max_age_hours * 3600)))) := by
  refine ⟨rfl, ?_, ?_, ?_⟩
  · intro entries hnf
    simp only [clean_temp_files]
    congr 1
    apply List.filter_congr
    intro e he
    simp [sweepKeeps, hnf e he]
  · intro entries e he hkeep
    refine ⟨_, rfl, ?_⟩
    rw [List.mem_filter]
    refine ⟨he, ?_⟩
    rcases hkeep with hnf | hnew
    · simp [sweepKeeps, hnf]
    · simp [sweepKeeps]
      exact Or.inl (Or.inr (by omega))
  · intro l₁ l₂ b hb
    simp only [clean_temp_files]
    congr 1
    rw [List.filter_append, List.filter_cons]
    have hkb : sweepKeeps (now - max_age_hours * 3600) b = true := by
      simp [sweepKeeps, hb]
    rw [if_pos hkb]
